import Mathlib

/-!
Verification of the youtufy video-download service (`src/main.py`) against its
natural-language specification.

The Python program is shallowly embedded: pure helpers (`safe_filename`,
`get_video_id`, the resolution table) become Lean functions; the background
pipeline `download_and_process_video` becomes a function from an environment
describing the outcomes of the external collaborators (pytube, ffmpeg, the
filesystem) to a record of the task's final state together with the trace of
status writes, the files removed, and the inputs handed to the transcoder.
The in-memory task dictionary becomes an association list with Python-dict
update semantics. HTTP handlers become functions returning a response value.
-/

namespace Youtufy

/-- The `DownloadStatus` pydantic model of main.py: `task_id`, free-string
`status`, and optional `filename` / `error` (both default `None`). -/
structure DownloadStatus where
  task_id : String
  status : String
  filename : Option String := none
  error : Option String := none
deriving Repr, DecidableEq

/-- `DOWNLOAD_DIR = "downloaded_videos"` (main.py line 19). -/
def DOWNLOAD_DIR : String := "downloaded_videos"

/-- `RESOLUTIONS = ["2160p", "1080p", "720p", "480p"]` (main.py line 22). -/
def RESOLUTIONS : List String := ["2160p", "1080p", "720p", "480p"]

/-- Python `\w` word-character class of `re.sub` in `safe_filename`, modelled
on the ASCII range (letters, digits, underscore); the unicode extent of `\w`
does not affect the properties proved here, which depend only on the class
being closed under itself and containing `'_'`. -/
def wordChar (c : Char) : Bool := c.isAlphanum || c = '_'

/-- A character the regex class `[^\w\-_\. ]` of `safe_filename` does NOT
match, i.e. a character that `re.sub` keeps. -/
def keptChar (c : Char) : Bool :=
  wordChar c || c = '-' || c = '_' || c = '.' || c = ' '

/-- The per-character substitution of `re.sub(r'[^\w\-_\. ]', '_', ...)`:
a character outside the class becomes an underscore. -/
def subChar (c : Char) : Char := if keptChar c then c else '_'

/-- `safe_filename` (main.py lines 39-40):
`re.sub(r'[^\w\-_\. ]', '_', filename)` — every character outside the class
is replaced by an underscore, character by character. -/
def safe_filename (s : String) : String := ⟨s.data.map subChar⟩

/-- Hexadecimal digit value, for percent-decoding in `unquote_plus`. -/
def hexVal (c : Char) : Option Nat :=
  if '0' ≤ c ∧ c ≤ '9' then some (c.toNat - '0'.toNat)
  else if 'a' ≤ c ∧ c ≤ 'f' then some (c.toNat - 'a'.toNat + 10)
  else if 'A' ≤ c ∧ c ≤ 'F' then some (c.toNat - 'A'.toNat + 10)
  else none

/-- Character-list worker for `unquote_plus`: `'+'` becomes a space and a
valid `%XX` escape becomes the character with code `XX` (the stdlib decodes
escaped bytes through UTF-8; multi-byte sequences are modelled bytewise
here, which is immaterial to the claims). A malformed escape is kept. -/
def unquoteAux : Nat → List Char → List Char
  | 0, l => l
  | _, [] => []
  | fuel + 1, '+' :: rest => ' ' :: unquoteAux fuel rest
  | fuel + 1, '%' :: a :: b :: rest =>
      match hexVal a, hexVal b with
      | some ha, some hb => Char.ofNat (ha * 16 + hb) :: unquoteAux fuel rest
      | _, _ => '%' :: unquoteAux fuel (a :: b :: rest)
  | fuel + 1, c :: rest => c :: unquoteAux fuel rest

/-- `urllib.parse.unquote_plus`, as used by `parse_qs` on names and values.
The fuel argument of the worker makes the recursion structural; every step
consumes at least one character, so fuel equal to the length never runs
out. -/
def unquote_plus (s : String) : String := ⟨unquoteAux s.data.length s.data⟩

/-- Split a character list at every occurrence of `sep`, Python
`str.split(sep)` for a one-character separator. -/
def splitOnChar (sep : Char) : List Char → List (List Char)
  | [] => [[]]
  | c :: rest =>
      let r := splitOnChar sep rest
      if c = sep then [] :: r
      else
        match r with
        | [] => [[c]]
        | h :: t => (c :: h) :: t

/-- Python `s.split('=', 1)` when at least one `'='` occurs: the part before
the first `'='` and the rest. `none` when `'='` does not occur. -/
def splitFirstEq : List Char → Option (List Char × List Char)
  | [] => none
  | '=' :: rest => some ([], rest)
  | c :: rest => (splitFirstEq rest).map fun p => (c :: p.1, p.2)

/-- `urllib.parse.parse_qsl` with its defaults (`keep_blank_values=False`,
`strict_parsing=False`, separator `'&'`): split the query on `'&'`, keep the
chunks that contain `'='` with a non-empty value, unquote names and values.
`parse_qs` groups this list into a dict of value lists in order. -/
def parse_qsl (qs : String) : List (String × String) :=
  (splitOnChar '&' qs.data).filterMap fun nv =>
    match splitFirstEq nv with
    | none => none
    | some (n, v) =>
        if v = [] then none else some (unquote_plus ⟨n⟩, unquote_plus ⟨v⟩)

/-- The components of `urllib.parse.urlparse(url)` that `get_video_id`
inspects. `urlparse` itself (scheme/netloc splitting, hostname lowercasing)
is the stdlib collaborator and is not re-derived here. -/
structure ParsedUrl where
  hostname : Option String
  path : String
  query : String
deriving Repr, DecidableEq

/-- `get_video_id` (main.py lines 42-52): on a youtube.com host return the
first value of the `v` query parameter (`parse_qs(query)["v"][0]`) when
present, on youtu.be return the path with the leading slash dropped
(`path[1:]`), otherwise `None`. -/
def get_video_id (u : ParsedUrl) : Option String :=
  if u.hostname = some "www.youtube.com" ∨ u.hostname = some "youtube.com" then
    match (parse_qsl u.query).find? (fun p => p.1 = "v") with
    | some p => some p.2
    | none => none
  else if u.hostname = some "youtu.be" then
    some ⟨u.path.data.drop 1⟩
  else none

/-- `os.path.join` for the non-absolute, non-empty components used in
main.py. -/
def os_path_join (a b : String) : String := a ++ "/" ++ b

/-- `os.path.basename`: the component after the last slash. -/
def os_path_basename (p : String) : String :=
  ⟨(splitOnChar '/' p.data).getLastD []⟩

/-- The resolution-to-geometry chain of main.py lines 92-101; `none` models
the final `else: raise ValueError(...)` branch. -/
def target_size (r : String) : Option String :=
  if r = "2160p" then some "3840x2160"
  else if r = "1080p" then some "1920x1080"
  else if r = "720p" then some "1280x720"
  else if r = "480p" then some "854x480"
  else none

/-- Python-dict membership for the `download_tasks` association list. -/
def dict_mem (store : List (String × DownloadStatus)) (k : String) : Bool :=
  store.any fun p => p.1 = k

/-- Python-dict read: `download_tasks.get(task_id)`. -/
def dict_get (store : List (String × DownloadStatus)) (k : String) :
    Option DownloadStatus :=
  (store.find? fun p => p.1 = k).map Prod.snd

/-- Python-dict write `download_tasks[task_id] = v`: replace in place when the
key exists (silently overwriting the old value), append otherwise. -/
def dict_set (store : List (String × DownloadStatus)) (k : String)
    (v : DownloadStatus) : List (String × DownloadStatus) :=
  if dict_mem store k then
    store.map fun p => if p.1 = k then (k, v) else p
  else store ++ [(k, v)]

/-- Outcomes of the external collaborators consumed by one run of
`download_and_process_video`, in the order the code consults them:
`YouTube(...)` construction plus `.title` (an exception's text on failure),
whether the adaptive-mp4 video stream query and the audio-only stream query
return a stream, whether each `stream.download` raises, whether the ffmpeg
invocation raises (with its error text), and whether each `os.remove` of an
intermediate file raises. -/
structure FetchEnv where
  titleResult : Except String String
  videoStreamFound : Bool
  videoDownloadError : Option String
  audioStreamFound : Bool
  audioDownloadError : Option String
  ffmpegError : Option String
  removeVideoError : Option String
  removeAudioError : Option String
deriving Repr

/-- What one run of `download_and_process_video` did: the final task record,
every value written to `task.status` in order, the files removed by
`os.remove`, the input files of the ffmpeg invocation (`none` when ffmpeg was
never reached) and its output file, and the intermediate file names once
computed. -/
structure RunResult where
  task : DownloadStatus
  statusTrace : List String
  removed : List String
  ffmpegInputs : Option (List String) := none
  ffmpegOutput : Option String := none
  videoFile : Option String := none
  audioFile : Option String := none
deriving Repr, DecidableEq

/-- `download_and_process_video` (main.py lines 54-123). `task0` is the record
the pipeline finds in `download_tasks[task_id]`; `url` is the parsed source
URL. The body sets `status = "Downloading"` before the `try` block; every
`raise` inside the `try` lands in the single `except Exception` handler, which
sets `status = "Failed"` and `error = str(e)`. The two `os.remove` calls sit
inside the `try`, after the ffmpeg call, so they run only when ffmpeg
succeeded, and their own failure is caught by the same handler. On success
`status = "Completed"` and then `filename = os.path.basename(output_file)`
are set with no suspension point between them. -/
def download_and_process_video (env : FetchEnv) (task0 : DownloadStatus)
    (url : ParsedUrl) (target_resolution : String) : RunResult :=
  let task_id := task0.task_id
  let t1 : DownloadStatus := { task0 with status := "Downloading" }
  let video_id := get_video_id url
  if video_id = none ∨ video_id = some "" then
    -- `if not video_id: raise ValueError("Invalid YouTube URL")`
    { task := { t1 with status := "Failed", error := some "Invalid YouTube URL" },
      statusTrace := ["Downloading", "Failed"], removed := [] }
  else
    match env.titleResult with
    | .error e =>
        { task := { t1 with status := "Failed", error := some e },
          statusTrace := ["Downloading", "Failed"], removed := [] }
    | .ok title =>
        let safe_title := safe_filename title
        if !env.videoStreamFound then
          -- `raise Exception("No suitable video stream found")`
          { task := { t1 with status := "Failed",
                              error := some "No suitable video stream found" },
            statusTrace := ["Downloading", "Failed"], removed := [] }
        else
          let video_file :=
            os_path_join DOWNLOAD_DIR (task_id ++ "_" ++ safe_title ++ "_video.mp4")
          match env.videoDownloadError with
          | some e =>
              { task := { t1 with status := "Failed", error := some e },
                statusTrace := ["Downloading", "Failed"], removed := [],
                videoFile := some video_file }
          | none =>
            if !env.audioStreamFound then
              -- `raise Exception("No audio stream found")`
              { task := { t1 with status := "Failed",
                                  error := some "No audio stream found" },
                statusTrace := ["Downloading", "Failed"], removed := [],
                videoFile := some video_file }
            else
              let audio_file :=
                os_path_join DOWNLOAD_DIR (task_id ++ "_" ++ safe_title ++ "_audio.mp4")
              match env.audioDownloadError with
              | some e =>
                  { task := { t1 with status := "Failed", error := some e },
                    statusTrace := ["Downloading", "Failed"], removed := [],
                    videoFile := some video_file, audioFile := some audio_file }
              | none =>
                -- `task.status = "Processing"`
                let t2 : DownloadStatus := { t1 with status := "Processing" }
                let output_file :=
                  os_path_join DOWNLOAD_DIR
                    (task_id ++ "_" ++ safe_title ++ "_" ++ target_resolution ++ ".mp4")
                match target_size target_resolution with
                | none =>
                    -- `raise ValueError(f"Invalid resolution: {target_resolution}")`
                    { task := { t2 with status := "Failed",
                                        error := some ("Invalid resolution: " ++ target_resolution) },
                      statusTrace := ["Downloading", "Processing", "Failed"],
                      removed := [],
                      videoFile := some video_file, audioFile := some audio_file }
                | some _ =>
                  -- ffmpeg.input(video_file).output(output_file, ...): the ONLY
                  -- input of the invocation is video_file; audio_file is never
                  -- passed to ffmpeg.
                  match env.ffmpegError with
                  | some e =>
                      { task := { t2 with status := "Failed", error := some e },
                        statusTrace := ["Downloading", "Processing", "Failed"],
                        removed := [],
                        ffmpegInputs := some [video_file],
                        ffmpegOutput := some output_file,
                        videoFile := some video_file, audioFile := some audio_file }
                  | none =>
                    match env.removeVideoError with
                    | some e =>
                        { task := { t2 with status := "Failed", error := some e },
                          statusTrace := ["Downloading", "Processing", "Failed"],
                          removed := [],
                          ffmpegInputs := some [video_file],
                          ffmpegOutput := some output_file,
                          videoFile := some video_file, audioFile := some audio_file }
                    | none =>
                      match env.removeAudioError with
                      | some e =>
                          { task := { t2 with status := "Failed", error := some e },
                            statusTrace := ["Downloading", "Processing", "Failed"],
                            removed := [video_file],
                            ffmpegInputs := some [video_file],
                            ffmpegOutput := some output_file,
                            videoFile := some video_file, audioFile := some audio_file }
                      | none =>
                          { task := { t2 with status := "Completed",
                                              filename := some (os_path_basename output_file) },
                            statusTrace := ["Downloading", "Processing", "Completed"],
                            removed := [video_file, audio_file],
                            ffmpegInputs := some [video_file],
                            ffmpegOutput := some output_file,
                            videoFile := some video_file, audioFile := some audio_file }

/-- The body of `download_and_process_video` contains no `await`: pytube and
ffmpeg are called synchronously. Under the single-threaded asyncio event loop
the request handlers therefore run only before the background task starts or
after it returns, so the task states a reader can observe are the record as
created and the final record. -/
def observable_states (env : FetchEnv) (task0 : DownloadStatus)
    (url : ParsedUrl) (target_resolution : String) : List DownloadStatus :=
  [task0, (download_and_process_video env task0 url target_resolution).task]

/-- An HTTP outcome of the `POST /download` handler: the JSON success body or
an `HTTPException` with status code and detail. -/
inductive SubmitResponse where
  | ok (task_id message : String)
  | httpError (status_code : Nat) (detail : String)
deriving Repr, DecidableEq

/-- `", ".join(strs)`. -/
def joinSep (sep : String) : List String → String
  | [] => ""
  | [x] => x
  | x :: xs => x ++ sep ++ joinSep sep xs

/-- The detail string of the `HTTPException(status_code=400, ...)` raised for
an unsupported resolution (main.py line 130):
`f"Invalid resolution. Supported resolutions are: {', '.join(RESOLUTIONS)}"`. -/
def invalidResolutionDetail : String :=
  "Invalid resolution. Supported resolutions are: " ++ joinSep ", " RESOLUTIONS

/-- `str(e)` for a starlette/fastapi `HTTPException`:
`f"{self.status_code}: {self.detail}"`. -/
def httpExceptionStr (code : Nat) (detail : String) : String :=
  toString code ++ ": " ++ detail

/-- `request_download` (main.py lines 126-141). The resolution check raises
`HTTPException(status_code=400, ...)` INSIDE the `try` block; `HTTPException`
subclasses `Exception`, so the handler's own `except Exception` catches it and
re-raises `HTTPException(status_code=500, detail=f"Internal server error:
{str(e)}")`. On a valid resolution the task is stored under the fresh id with
status `"Queued"` (a plain dict assignment) before the background task is
scheduled. Returns the response and the store after the call. -/
def request_download (resolution : String) (task_id : String)
    (store : List (String × DownloadStatus)) :
    SubmitResponse × List (String × DownloadStatus) :=
  if RESOLUTIONS.contains resolution then
    let t : DownloadStatus := { task_id := task_id, status := "Queued" }
    (.ok task_id "Download request accepted", dict_set store task_id t)
  else
    (.httpError 500
       ("Internal server error: " ++ httpExceptionStr 400 invalidResolutionDetail),
     store)

/-- Outcome of `GET /status/{task_id}`. -/
inductive StatusResponse where
  | ok (t : DownloadStatus)
  | notFound (detail : String)
deriving Repr, DecidableEq

/-- Whether a status response is the 404 branch. -/
def StatusResponse.isNotFound : StatusResponse → Bool
  | .notFound _ => true
  | .ok _ => false

/-- `get_status` (main.py lines 143-148): 404 when the id is absent from the
dict (a present `DownloadStatus` instance is always truthy), otherwise the
task record. -/
def get_status (store : List (String × DownloadStatus)) (task_id : String) :
    StatusResponse :=
  match dict_get store task_id with
  | none => .notFound "Task not found"
  | some t => .ok t

/-- Outcome of `GET /download/{task_id}`: a `FileResponse` (path, media type,
suggested name) or a 404. -/
inductive GetFileResponse where
  | file (path : String) (media_type : String) (filename : Option String)
  | notFound (detail : String)
deriving Repr, DecidableEq

/-- Whether a file response is the 404 branch. -/
def GetFileResponse.isNotFound : GetFileResponse → Bool
  | .notFound _ => true
  | .file _ _ _ => false

/-- `download_file` (main.py lines 150-157): 404 when the task is absent or
its status is anything but `"Completed"`; otherwise serve the stored filename
from the working directory as `video/mp4`. -/
def download_file (store : List (String × DownloadStatus)) (task_id : String) :
    GetFileResponse :=
  match dict_get store task_id with
  | none => .notFound "Download not ready or doesn't exist"
  | some t =>
      if t.status ≠ "Completed" then
        .notFound "Download not ready or doesn't exist"
      else
        .file (os_path_join DOWNLOAD_DIR (t.filename.getD "")) "video/mp4" t.filename

/-- The working directory as the shutdown hook sees it: the files
`os.listdir` would report, and whether the directory exists. -/
structure WorkingDir where
  files : List String
  present : Bool
deriving Repr, DecidableEq

/-- `os.remove` of one file in the working directory. -/
def os_remove (d : WorkingDir) (f : String) : WorkingDir :=
  { d with files := d.files.erase f }

/-- `os.rmdir(DOWNLOAD_DIR)`; the directory is empty when main.py calls it. -/
def os_rmdir (d : WorkingDir) : WorkingDir := { d with present := false }

/-- `shutdown_event` (main.py lines 159-163): `os.remove` every entry of
`os.listdir(DOWNLOAD_DIR)`, then `os.rmdir(DOWNLOAD_DIR)`. -/
def shutdown_event (d : WorkingDir) : WorkingDir :=
  os_rmdir (d.files.foldl os_remove d)

/-! Concrete sample values used by witnesses and counterexamples. -/

/-- An environment in which every external call succeeds. -/
def envOk : FetchEnv :=
  { titleResult := .ok "My Video", videoStreamFound := true,
    videoDownloadError := none, audioStreamFound := true,
    audioDownloadError := none, ffmpegError := none,
    removeVideoError := none, removeAudioError := none }

/-- Like `envOk` but the ffmpeg invocation fails. -/
def envFfmpegFail : FetchEnv := { envOk with ffmpegError := some "ffmpeg error" }

/-- Like `envOk` but `os.remove(video_file)` fails. -/
def envRemoveVideoFail : FetchEnv :=
  { envOk with removeVideoError := some "Permission denied" }

/-- The parse of `https://www.youtube.com/watch?v=abc123`. -/
def urlWatch : ParsedUrl :=
  { hostname := some "www.youtube.com", path := "/watch", query := "v=abc123" }

/-- The parse of `https://youtu.be/abc123`. -/
def urlShort : ParsedUrl := { hostname := some "youtu.be", path := "/abc123", query := "" }

/-- The parse of a non-YouTube URL. -/
def urlOther : ParsedUrl := { hostname := some "example.com", path := "/v", query := "v=x" }

/-- A freshly created task record, as `request_download` stores it. -/
def queuedTask (tid : String) : DownloadStatus := { task_id := tid, status := "Queued" }

/-- A pipeline run started on a freshly created (`Queued`) task, the only way
main.py ever starts one. -/
def runTask (env : FetchEnv) (tid : String) (url : ParsedUrl) (res : String) :
    RunResult :=
  download_and_process_video env (queuedTask tid) url res

/-- A pre-existing store entry used to exhibit the overwrite behaviour of the
task dictionary. -/
def oldTask : DownloadStatus :=
  { task_id := "dup", status := "Completed", filename := some "old.mp4" }

/-! Helper lemmas. -/

/-- The underscore that `subChar` substitutes is itself a kept character. -/
theorem keptChar_underscore : keptChar '_' = true := by decide

/-- `subChar` always produces a kept character. -/
theorem subChar_allowed (c : Char) : keptChar (subChar c) = true := by
  by_cases h : keptChar c = true
  · simp [subChar, h]
  · simp [subChar, h, keptChar_underscore]

/-- `subChar` is idempotent. -/
theorem subChar_idem (c : Char) : subChar (subChar c) = subChar c := by
  by_cases h : keptChar c = true
  · simp [subChar, h]
  · simp [subChar, h, keptChar_underscore]

/-- Erasing, in order, every element of a list from that same list leaves
nothing. -/
theorem foldl_erase_self (l : List String) : List.foldl List.erase l l = [] := by
  induction l with
  | nil => rfl
  | cons x xs ih => rw [List.foldl_cons, List.erase_cons_head]; exact ih

/-- Folding `os_remove` over a file list erases those files and leaves the
directory's existence flag alone. -/
theorem files_foldl_os_remove (l : List String) : ∀ d : WorkingDir,
    (l.foldl os_remove d).files = List.foldl List.erase d.files l ∧
    (l.foldl os_remove d).present = d.present := by
  induction l with
  | nil => intro d; exact ⟨rfl, rfl⟩
  | cons x xs ih => intro d; simpa [os_remove] using ih (os_remove d x)

/-- Replacing the value at a present key makes lookup return the new value. -/
theorem dict_find_replace (k : String) (v : DownloadStatus) :
    ∀ store : List (String × DownloadStatus), dict_mem store k = true →
      dict_get (store.map fun p => if p.1 = k then (k, v) else p) k = some v := by
  intro store
  induction store with
  | nil => intro h; simp [dict_mem] at h
  | cons q rest ih =>
      intro h
      by_cases hq : q.1 = k
      · simp [dict_get, hq]
      · have : dict_mem rest k = true := by simpa [dict_mem, hq] using h
        simpa [dict_get, hq] using ih this

/-- Appending a binding for an absent key makes lookup return its value. -/
theorem dict_append_new (k : String) (v : DownloadStatus) :
    ∀ store : List (String × DownloadStatus), dict_mem store k = false →
      dict_get (store ++ [(k, v)]) k = some v := by
  intro store
  induction store with
  | nil => intro _; simp [dict_get]
  | cons q rest ih =>
      intro h
      have hq : ¬(q.1 = k) := by
        intro hc; simp [dict_mem, hc] at h
      have : dict_mem rest k = false := by simpa [dict_mem, hq] using h
      simpa [dict_get, hq] using ih this

/-- A Python-dict assignment always wins: lookup after `dict_set` returns the
assigned value, whether or not the key was present before. -/
theorem dict_get_set_self (store : List (String × DownloadStatus)) (k : String)
    (v : DownloadStatus) : dict_get (dict_set store k v) k = some v := by
  unfold dict_set
  by_cases h : dict_mem store k = true
  · simpa [h] using dict_find_replace k v store h
  · have hf : dict_mem store k = false := by simpa using h
    simpa [hf] using dict_append_new k v store hf

/-! Claims. -/

/-- C1, counterexample: on a successful run the status field holds the value
`"Downloading"`, which is not among the five values the claim allows (the
claim names the in-flight fetch state `Fetching`). -/
theorem C1_counterexample :
    "Downloading" ∈
      (queuedTask "t1").status :: (runTask envOk "t1" urlWatch "720p").statusTrace ∧
    "Downloading" ∉ ["Queued", "Fetching", "Processing", "Completed", "Failed"] := by
  decide

/-- C1, amended: the status field only ever holds one of `Queued`,
`Downloading`, `Processing`, `Completed`, `Failed` — the in-flight fetch state
is named `Downloading`, not `Fetching` — and within one task the status moves
only along `Queued→Downloading`, `Downloading→Processing`,
`Downloading→Failed`, `Processing→Completed`, `Processing→Failed`; `Completed`
and `Failed` are the last write of the run, and the final record's status is
that last write. -/
theorem C1_amended_lifecycle (env : FetchEnv) (tid : String) (url : ParsedUrl)
    (res : String) :
    (queuedTask tid).status :: (runTask env tid url res).statusTrace ∈
      [["Queued", "Downloading", "Failed"],
       ["Queued", "Downloading", "Processing", "Failed"],
       ["Queued", "Downloading", "Processing", "Completed"]] ∧
    (runTask env tid url res).task.status =
      ((runTask env tid url res).statusTrace).getLastD "Queued" := by
  simp only [runTask, download_and_process_video, queuedTask]
  repeat' split
  all_goals simp

/-- C2: the code raises the 400 for an unsupported resolution inside the
handler's own `try`, whose `except Exception` catches it (an `HTTPException`
is an `Exception`) and re-raises a 500 — so the caller receives a server
error, not the claimed 400; no task is created either way. -/
theorem C2_invalid_resolution_returns_500 :
    request_download "4k" "t2" [] =
      (SubmitResponse.httpError 500
        ("Internal server error: " ++ httpExceptionStr 400 invalidResolutionDetail),
       []) ∧
    (request_download "4k" "t2" []).1 ≠
      SubmitResponse.httpError 400 invalidResolutionDetail := by
  decide

/-- C3: every run ends in `Completed` or `Failed`; the final record has its
filename set exactly when `Completed` and its error set exactly when `Failed`,
never both; and no observable state (the body has no suspension point, so
readers see only the created record and the final record) shows `Completed`
with an unset filename. -/
theorem C3_terminal_state_consistency (env : FetchEnv) (tid : String)
    (url : ParsedUrl) (res : String) :
    ((runTask env tid url res).task.status = "Completed" ∨
      (runTask env tid url res).task.status = "Failed") ∧
    ((runTask env tid url res).task.status = "Completed" ↔
      (runTask env tid url res).task.filename.isSome = true) ∧
    ((runTask env tid url res).task.status = "Failed" ↔
      (runTask env tid url res).task.error.isSome = true) ∧
    ¬((runTask env tid url res).task.filename.isSome = true ∧
      (runTask env tid url res).task.error.isSome = true) ∧
    (∀ t ∈ observable_states env (queuedTask tid) url res,
      t.status = "Completed" → t.filename.isSome = true) := by
  simp only [runTask, observable_states, download_and_process_video, queuedTask]
  repeat' split
  all_goals simp

/-- C3, witness: on a fully successful run the final record is observable and
its filename is set. -/
theorem C3_witness :
    (runTask envOk "t3" urlWatch "720p").task.filename.isSome = true :=
  (C3_terminal_state_consistency envOk "t3" urlWatch "720p").2.2.2.2
    (runTask envOk "t3" urlWatch "720p").task
    (by simp [observable_states, runTask]) (by decide)

/-- C4: on a run that reaches the transcode step, the ffmpeg invocation's
input list is exactly the downloaded video file; the separately downloaded
audio file is never passed to ffmpeg, so the `Completed` artifact is produced
without the audio track, contradicting the claim. -/
theorem C4_ffmpeg_inputs_omit_audio :
    (runTask envOk "t4" urlWatch "720p").ffmpegInputs =
      some ["downloaded_videos/t4_My Video_video.mp4"] ∧
    (runTask envOk "t4" urlWatch "720p").audioFile =
      some "downloaded_videos/t4_My Video_audio.mp4" ∧
    "downloaded_videos/t4_My Video_audio.mp4" ∉
      ((runTask envOk "t4" urlWatch "720p").ffmpegInputs.getD []) ∧
    (runTask envOk "t4" urlWatch "720p").task.status = "Completed" := by
  decide

/-- C5, counterexample: with a failing transcoder the transcode step has run
(ffmpeg was invoked) yet no intermediate file is deleted; and a failing
`os.remove` is caught by the `except` handler and transitions the task to
`Failed` — both directions of the claim fail. -/
theorem C5_counterexample :
    ((runTask envFfmpegFail "t5" urlWatch "720p").ffmpegInputs.isSome = true ∧
     (runTask envFfmpegFail "t5" urlWatch "720p").removed = [] ∧
     (runTask envFfmpegFail "t5" urlWatch "720p").task.status = "Failed") ∧
    ((runTask envRemoveVideoFail "t5" urlWatch "720p").task.status = "Failed" ∧
     (runTask envRemoveVideoFail "t5" urlWatch "720p").task.error =
       some "Permission denied" ∧
     (runTask envRemoveVideoFail "t5" urlWatch "720p").removed = []) := by
  decide

/-- C5, amended: the intermediate files are deleted only on the success path —
when the transcoder fails they are left in place; on a completed run exactly
the two intermediates are deleted; and a failure of a deletion itself
propagates to the error handler, transitioning the task to `Failed` with that
deletion error. -/
theorem C5_amended_cleanup (env : FetchEnv) (tid : String) (url : ParsedUrl)
    (res : String) :
    (env.ffmpegError.isSome = true → (runTask env tid url res).removed = []) ∧
    ((runTask env tid url res).task.status = "Completed" →
      (runTask env tid url res).removed =
        [(runTask env tid url res).videoFile.getD "",
         (runTask env tid url res).audioFile.getD ""]) ∧
    ((runTask env tid url res).ffmpegInputs.isSome = true → env.ffmpegError = none →
      env.removeVideoError.isSome = true →
        (runTask env tid url res).task.status = "Failed" ∧
        (runTask env tid url res).task.error = env.removeVideoError ∧
        (runTask env tid url res).removed = []) ∧
    ((runTask env tid url res).ffmpegInputs.isSome = true → env.ffmpegError = none →
      env.removeVideoError = none → env.removeAudioError.isSome = true →
        (runTask env tid url res).task.status = "Failed" ∧
        (runTask env tid url res).task.error = env.removeAudioError ∧
        (runTask env tid url res).removed =
          [(runTask env tid url res).videoFile.getD ""]) := by
  simp only [runTask, download_and_process_video, queuedTask]
  repeat' split
  all_goals simp_all

/-- C5, witness: a concrete run in which `os.remove(video_file)` fails ends
`Failed` with that error and deletes nothing. -/
theorem C5_witness :
    (runTask envRemoveVideoFail "t5w" urlWatch "720p").task.status = "Failed" ∧
    (runTask envRemoveVideoFail "t5w" urlWatch "720p").task.error =
      envRemoveVideoFail.removeVideoError ∧
    (runTask envRemoveVideoFail "t5w" urlWatch "720p").removed = [] :=
  (C5_amended_cleanup envRemoveVideoFail "t5w" urlWatch "720p").2.2.1
    (by decide) (by decide) (by decide)

/-- C6: `GET /status/{task_id}` is a 404 exactly when the id is absent from
the task dictionary, and `GET /download/{task_id}` is a 404 exactly when the
task is absent or its status is anything other than `"Completed"`. -/
theorem C6_retrieval_not_found (store : List (String × DownloadStatus))
    (task_id : String) :
    ((get_status store task_id).isNotFound = true ↔ dict_get store task_id = none) ∧
    ((download_file store task_id).isNotFound = true ↔
      ∀ t, dict_get store task_id = some t → t.status ≠ "Completed") := by
  cases h : dict_get store task_id with
  | none =>
      simp [get_status, download_file, h, StatusResponse.isNotFound,
        GetFileResponse.isNotFound]
  | some t =>
      by_cases hc : t.status = "Completed" <;>
        simp [get_status, download_file, h, hc, StatusResponse.isNotFound,
          GetFileResponse.isNotFound]

/-- C6, witness: on the empty store the status endpoint 404s, and a store
holding one `Failed` task 404s on the download endpoint for that id. -/
theorem C6_witness :
    (get_status [] "missing").isNotFound = true ∧
    (download_file [("f", { task_id := "f", status := "Failed",
                            error := some "x" })] "f").isNotFound = true :=
  ⟨(C6_retrieval_not_found [] "missing").1.mpr (by decide),
   (C6_retrieval_not_found
      [("f", { task_id := "f", status := "Failed", error := some "x" })] "f").2.mpr
     (by decide)⟩

/-- C7: the video-identifier extraction returns the first `v` query-parameter
value on the youtube.com hosts, the path after the leading slash on youtu.be,
and nothing on any other host; and a run whose URL yields no identifier ends
`Failed` with the invalid-source-URL message. -/
theorem C7_video_id_extraction (env : FetchEnv) (tid : String) (res : String)
    (u : ParsedUrl) :
    (u.hostname = some "www.youtube.com" ∨ u.hostname = some "youtube.com" →
      get_video_id u = ((parse_qsl u.query).find? fun p => p.1 = "v").map Prod.snd) ∧
    (u.hostname = some "youtu.be" →
      get_video_id u = some ⟨u.path.data.drop 1⟩) ∧
    (u.hostname ≠ some "www.youtube.com" → u.hostname ≠ some "youtube.com" →
      u.hostname ≠ some "youtu.be" → get_video_id u = none) ∧
    (get_video_id u = none →
      (runTask env tid u res).task.status = "Failed" ∧
      (runTask env tid u res).task.error = some "Invalid YouTube URL") := by
  refine ⟨?_, ?_, ?_, ?_⟩
  · intro h
    simp only [get_video_id, if_pos h]
    cases (parse_qsl u.query).find? fun p => p.1 = "v" <;> simp
  · intro h
    simp [get_video_id, h]
  · intro h1 h2 h3
    simp [get_video_id, h1, h2, h3]
  · intro h
    simp only [runTask, download_and_process_video, queuedTask, h]
    simp

/-- C7, witness: a non-YouTube URL yields no identifier and the run on it
fails with the invalid-source-URL message. -/
theorem C7_witness :
    (runTask envOk "t7" urlOther "720p").task.status = "Failed" ∧
    (runTask envOk "t7" urlOther "720p").task.error = some "Invalid YouTube URL" :=
  (C7_video_id_extraction envOk "t7" "720p" urlOther).2.2.2 (by decide)

/-- C8, counterexample: `download_tasks[task_id] = ...` on an id already bound
to a completed task raises nothing — the submission succeeds and the old
record is silently replaced by the fresh `Queued` one (no `DuplicateIdError`
exists anywhere in the code). -/
theorem C8_counterexample :
    (request_download "720p" "dup" [("dup", oldTask)]).1 =
      SubmitResponse.ok "dup" "Download request accepted" ∧
    dict_get (request_download "720p" "dup" [("dup", oldTask)]).2 "dup" =
      some (queuedTask "dup") ∧
    queuedTask "dup" ≠ oldTask := by
  decide

/-- C8, amended: if the given id already exists in the store, the creation
silently overwrites the existing record with the fresh `Queued` task and
reports success; no error of any kind is raised. -/
theorem C8_amended_silent_overwrite (r : String)
    (hr : RESOLUTIONS.contains r = true) (store : List (String × DownloadStatus))
    (id : String) (old : DownloadStatus) (h : dict_get store id = some old) :
    (request_download r id store).1 = SubmitResponse.ok id "Download request accepted" ∧
    dict_get (request_download r id store).2 id = some (queuedTask id) := by
  simp only [request_download, if_pos hr]
  exact ⟨trivial, dict_get_set_self store id (queuedTask id)⟩

/-- C8, amended, witness: overwriting the bound id `dup` at resolution
`1080p`. -/
theorem C8_witness :
    (request_download "1080p" "dup" [("dup", oldTask)]).1 =
      SubmitResponse.ok "dup" "Download request accepted" ∧
    dict_get (request_download "1080p" "dup" [("dup", oldTask)]).2 "dup" =
      some (queuedTask "dup") :=
  C8_amended_silent_overwrite "1080p" (by decide) [("dup", oldTask)] "dup" oldTask
    (by decide)

/-- C9: the shutdown hook removes every file of the working directory and then
removes the directory itself, leaving no working file or completed
artifact. -/
theorem C9_shutdown_purges (d : WorkingDir) :
    (shutdown_event d).files = [] ∧ (shutdown_event d).present = false := by
  unfold shutdown_event os_rmdir
  refine ⟨?_, rfl⟩
  simpa [(files_foldl_os_remove d.files d).1] using foldl_erase_self d.files

/-- C10: every character of a `safe_filename` result is a word character,
hyphen, underscore, dot or space, and `safe_filename` is idempotent. -/
theorem C10_safe_filename_sanitizes_idempotent (s : String) :
    (∀ c ∈ (safe_filename s).data,
        wordChar c = true ∨ c = '-' ∨ c = '_' ∨ c = '.' ∨ c = ' ') ∧
    safe_filename (safe_filename s) = safe_filename s := by
  constructor
  · intro c hc
    simp only [safe_filename, List.mem_map] at hc
    obtain ⟨a, _, ha⟩ := hc
    have hk : keptChar c = true := ha ▸ subChar_allowed a
    simp only [keptChar, Bool.or_eq_true, decide_eq_true_eq] at hk
    tauto
  · unfold safe_filename
    simp [List.map_map, Function.comp_def, subChar_idem]

/-- C10, witness: the character `a` of `safe_filename "a/b"` is in the allowed
class, and sanitizing is idempotent on `"a/b"`. -/
theorem C10_witness :
    (wordChar 'a' = true ∨ 'a' = '-' ∨ 'a' = '_' ∨ 'a' = '.' ∨ 'a' = ' ') ∧
    safe_filename (safe_filename "a/b") = safe_filename "a/b" :=
  ⟨(C10_safe_filename_sanitizes_idempotent "a/b").1 'a' (by decide),
   (C10_safe_filename_sanitizes_idempotent "a/b").2⟩

end Youtufy
